import Mathlib

/-!
Verification development for the job-ad harvesting pipeline
(source: src/job_scraper.py).

The Python source is shallowly embedded below.  Pure helpers become Lean
functions; the regular expressions used by the source are embedded as
explicit leftmost-search scanners over character lists, faithful to the
backtracking behaviour of the three concrete patterns the source compiles;
strptime is embedded for exactly the two formats the source uses, on the
capture shapes those regexes produce.  Character classes are modelled over
ASCII (the inputs the program handles).  External collaborators that are out
of scope per the source (hashlib.md5, urllib.parse.urljoin, the network, the
filesystem) are passed in as parameters or oracle records.  Side effects are
made explicit: functions return their value together with the list of
warning or error level log messages they emit (info level logging is not
modelled), and the sqlite connection becomes a record of committed and
staged rows with commit and rollback as in sqlite transactions, where
uncommitted writes of the same connection are visible to its own SELECTs.
-/

-- ## Character classes (ASCII models of the re classes used by the source)

/-- Model of the regex class bs-s (whitespace), over ASCII. -/
def isReSpace (c : Char) : Bool :=
  c = ' ' || c = '\t' || c = '\n' || c = '\r' || c = '\x0b' || c = '\x0c'

/-- Model of the regex class bs-w (word character), over ASCII. -/
def isReWord (c : Char) : Bool := c.isAlphanum || c = '_'

/-- Model of the regex class bs-d (digit), over ASCII. -/
def isReDigit (c : Char) : Bool := c.isDigit

/-- Python str.strip: remove leading and trailing whitespace. -/
def pstrip (s : String) : String :=
  String.mk (((s.data.dropWhile isReSpace).reverse.dropWhile isReSpace).reverse)

-- ## Primitive scanners

/-- Match a literal character sequence at the start of the input,
returning the rest on success. -/
def matchLit : List Char → List Char → Option (List Char)
  | [], s => some s
  | _ :: _, [] => none
  | l :: ls, c :: cs => if c = l then matchLit ls cs else none

/-- Match exactly n digits at the start of the input, returning them and
the rest (the regex quantifier d-braces-n on the digit class). -/
def matchDigits : Nat → List Char → Option (List Char × List Char)
  | 0, s => some ([], s)
  | _ + 1, [] => none
  | n + 1, c :: cs =>
    if isReDigit c then (matchDigits n cs).map (fun p => (c :: p.1, p.2)) else none

/-- Substring test: the needle occurs somewhere in the haystack. -/
def hasSub (needle : List Char) : List Char → Bool
  | [] => (matchLit needle []).isSome
  | c :: rest => (matchLit needle (c :: rest)).isSome || hasSub needle rest

/-- re.search semantics: try the anchored matcher at every position, left to
right; the leftmost successful position wins. -/
def searchWith (m : List Char → Option (List Char)) : List Char → Option (List Char)
  | [] => m []
  | c :: rest =>
    match m (c :: rest) with
    | some cap => some cap
    | none => searchWith m rest

-- ## The three concrete regex patterns of the source

/-- Tail of pattern 1 after the two day digits: an optional comma (greedy,
with the fallback branch the backtracking engine would take), a space, and
four digits.  Returns the matched characters. -/
def matchNoComma (r : List Char) : Option (List Char) :=
  match r with
  | ' ' :: rest => (matchDigits 4 rest).map (fun p => ' ' :: p.1)
  | _ => none

/-- Greedy optional comma branch of pattern 1, falling back to the
comma-less branch exactly as the backtracking engine does. -/
def matchCommaTail (r : List Char) : Option (List Char) :=
  match r with
  | ',' :: ' ' :: rest =>
    match matchDigits 4 rest with
    | some p => some (',' :: ' ' :: p.1)
    | none => matchNoComma r
  | _ => matchNoComma r

/-- Anchored matcher for pattern 1 of parse_deadline, source line 50:
literal Deadline colon, whitespace, then the capture group of a word, a
space, two digits, an optional comma, a space and four digits.  Returns the
captured group.  The whitespace and word runs are taken greedily; since the
space, word and digit classes involved are pairwise disjoint at each
boundary, maximal munch coincides with the backtracking engine. -/
def matchP1At (s : List Char) : Option (List Char) :=
  match matchLit ("Deadline:".data) s with
  | none => none
  | some r1 =>
    let r2 := r1.dropWhile isReSpace
    let w := r2.takeWhile isReWord
    if w.isEmpty then none
    else
      match r2.dropWhile isReWord with
      | ' ' :: d1 :: d2 :: r4 =>
        if isReDigit d1 && isReDigit d2 then
          match matchCommaTail r4 with
          | some tail => some (w ++ ' ' :: d1 :: d2 :: tail)
          | none => none
        else none
      | _ => none

/-- Anchored matcher for pattern 2 of parse_deadline, source line 51:
literal Bewerbungsschluss colon, whitespace, then the capture group of two
digits, a dot, two digits, a dot and four digits. -/
def matchP2At (s : List Char) : Option (List Char) :=
  match matchLit ("Bewerbungsschluss:".data) s with
  | none => none
  | some r1 =>
    match r1.dropWhile isReSpace with
    | d1 :: d2 :: '.' :: m1 :: m2 :: '.' :: y1 :: y2 :: y3 :: y4 :: _ =>
      if isReDigit d1 && isReDigit d2 && isReDigit m1 && isReDigit m2 &&
         isReDigit y1 && isReDigit y2 && isReDigit y3 && isReDigit y4 then
        some [d1, d2, '.', m1, m2, '.', y1, y2, y3, y4]
      else none
    | _ => none

/-- Anchored matcher for the reference-number pattern, source line 94:
literal Kenn-Nr dot, whitespace, then the capture group of one or more
non-whitespace characters (greedy). -/
def matchKennAt (s : List Char) : Option (List Char) :=
  match matchLit ("Kenn-Nr.".data) s with
  | none => none
  | some r1 =>
    let tok := (r1.dropWhile isReSpace).takeWhile (fun c => !isReSpace c)
    if tok.isEmpty then none else some tok

/-- re.search with pattern 1 of parse_deadline. -/
def searchP1 (s : List Char) : Option (List Char) := searchWith matchP1At s

/-- re.search with pattern 2 of parse_deadline. -/
def searchP2 (s : List Char) : Option (List Char) := searchWith matchP2At s

/-- re.search with the Kenn-Nr pattern of scrape_job_ads. -/
def searchKennNr (s : List Char) : Option (List Char) := searchWith matchKennAt s

-- ## Calendar dates and the two strptime formats the source uses

/-- A calendar date as produced by datetime.date. -/
structure DateD where
  year : Nat
  month : Nat
  day : Nat
deriving DecidableEq, Repr

/-- Gregorian leap-year rule, as used by datetime. -/
def isLeap (y : Nat) : Bool :=
  decide (y % 4 = 0) && (decide (y % 100 ≠ 0) || decide (y % 400 = 0))

/-- Days in a month, as validated by the datetime constructor. -/
def daysInMonth (y m : Nat) : Nat :=
  if m = 2 then (if isLeap y then 29 else 28)
  else if m = 4 || m = 6 || m = 9 || m = 11 then 30
  else 31

/-- Validity check of datetime.date (with MINYEAR = 1; years above 4 digits
cannot arise from the 4-digit captures fed to it here). -/
def validDate (y m d : Nat) : Bool :=
  decide (1 ≤ y) && decide (1 ≤ m) && decide (m ≤ 12) &&
  decide (1 ≤ d) && decide (d ≤ daysInMonth y m)

/-- Numeric value of a digit character. -/
def digitVal (c : Char) : Nat := c.toNat - '0'.toNat

/-- The lowercase full month names strptime recognises for the B directive
(matched case-insensitively). -/
def monthNames : List (List Char) :=
  [ "january".data, "february".data, "march".data, "april".data,
    "may".data, "june".data, "july".data, "august".data,
    "september".data, "october".data, "november".data, "december".data ]

/-- Month number of a word, case-insensitively, or none. -/
def monthNumber (w : List Char) : Option Nat :=
  (monthNames.findIdx? (fun n => decide (n = w.map Char.toLower))).map (· + 1)

/-- datetime.strptime with format percent-B space percent-d comma space
percent-Y, on strings of the capture shape produced by pattern 1: a word, a
space, two digits, an optional comma, a space and four digits.  strptime
requires the comma of the format to be present, the word to be a full month
name, and the resulting date to be a valid calendar date; otherwise it
raises ValueError, modelled as none. -/
def strptimeMonth (cap : List Char) : Option DateD :=
  match monthNumber (cap.takeWhile isReWord), cap.dropWhile isReWord with
  | some m, ' ' :: d1 :: d2 :: ',' :: ' ' :: y1 :: y2 :: y3 :: y4 :: [] =>
    let d := digitVal d1 * 10 + digitVal d2
    let y := ((digitVal y1 * 10 + digitVal y2) * 10 + digitVal y3) * 10 + digitVal y4
    if validDate y m d then some { year := y, month := m, day := d } else none
  | _, _ => none

/-- datetime.strptime with format percent-d dot percent-m dot percent-Y, on
strings of the capture shape produced by pattern 2 (two digits, dot, two
digits, dot, four digits); ValueError on an invalid calendar date is
modelled as none. -/
def strptimeDot (cap : List Char) : Option DateD :=
  match cap with
  | d1 :: d2 :: '.' :: m1 :: m2 :: '.' :: y1 :: y2 :: y3 :: y4 :: [] =>
    let d := digitVal d1 * 10 + digitVal d2
    let m := digitVal m1 * 10 + digitVal m2
    let y := ((digitVal y1 * 10 + digitVal y2) * 10 + digitVal y3) * 10 + digitVal y4
    if validDate y m d then some { year := y, month := m, day := d } else none
  | _ => none

-- ## parse_deadline (source lines 48 to 65)

/-- The try block of parse_deadline, source lines 57 to 61: dispatch on
whether the captured fragment contains a dot, then strptime with the
corresponding format; a ValueError becomes none. -/
def tryParseCaptured (cap : List Char) : Option DateD :=
  if cap.contains '.' then strptimeDot cap else strptimeMonth cap

/-- The ordered pattern list of parse_deadline, source lines 49 to 52. -/
def datePatterns : List (List Char → Option (List Char)) := [searchP1, searchP2]

/-- The pattern loop of parse_deadline, source lines 53 to 65: patterns are
tried in order; a match that parses returns immediately; a match that fails
to parse logs a warning and the loop continues with the next pattern; after
the loop a no-valid-deadline warning is logged and none is returned. -/
def parseLoop : List (List Char → Option (List Char)) → List Char → Option DateD × List String
  | [], text => (none, ["No valid deadline found in: " ++ String.mk text])
  | p :: rest, text =>
    match p text with
    | none => parseLoop rest text
    | some cap =>
      match tryParseCaptured cap with
      | some d => (some d, [])
      | none =>
        let r := parseLoop rest text
        (r.1, ("Failed to parse date: " ++ String.mk cap) :: r.2)

/-- parse_deadline, source lines 48 to 65.  Returns the optional date and
the warning messages logged. -/
def parse_deadline (text : String) : Option DateD × List String :=
  parseLoop datePatterns text.data

-- ## generate_id (source lines 67 to 70)

/-- ISO rendering of a date, as Python str on a datetime.date
(zero-padded YYYY-MM-DD). -/
def padNum (width n : Nat) : String :=
  let s := toString n
  String.mk (List.replicate (width - s.length) '0') ++ s

/-- Python str of a datetime.date. -/
def dateIso (d : DateD) : String :=
  padNum 4 d.year ++ "-" ++ padNum 2 d.month ++ "-" ++ padNum 2 d.day

/-- generate_id, source lines 67 to 70.  The md5 hex digest is an external
deterministic function (hashlib), passed as a parameter.  A present date is
always truthy in Python, so the first branch is taken exactly when a
deadline is present; the f-string renders the date in ISO form. -/
def generate_id (md5 : String → String) (title : String) (deadline : Option DateD) : String :=
  match deadline with
  | some d => md5 (title ++ dateIso d)
  | none => md5 title

-- ## Parsed markup (the BeautifulSoup views the source reads)

/-- An anchor element as read by the source: its text and its href. -/
structure Anchor where
  text : String
  href : String
deriving DecidableEq, Repr

/-- A list-item entry of the listings container.  The link field models
li.find of an anchor with the up-document-link class (none when absent);
fullText models the value of li.get_text with strip=True. -/
structure ListItem where
  link : Option Anchor
  fullText : String
deriving DecidableEq, Repr

/-- The parsed page, as read by scrape_job_ads: the text of the first h1
element (none when the page has no h1, in which case the attribute access
on the find result raises AttributeError), and the div with the
up-content-link-box class (none when absent) with its list items. -/
structure Soup where
  h1 : Option String
  container : Option (List ListItem)
deriving DecidableEq, Repr

/-- A candidate dictionary as built by scrape_job_ads, source lines 101
to 107. -/
structure JobAd where
  id : String
  title : String
  pdf_url : String
  job_type : String
  deadline : Option DateD
deriving DecidableEq, Repr

/-- External deterministic helpers the source delegates to: the md5 hex
digest of hashlib and urljoin of urllib.parse. -/
structure ExtFns where
  md5 : String → String
  urljoin : String → String → String

-- ## scrape_job_ads (source lines 72 to 110)

/-- One iteration of the loop of scrape_job_ads, source lines 83 to 107:
entries without the document link are skipped; otherwise the title is the
stripped link text, the document url is urljoin of base and href, the
deadline is parsed from the full item text, and the id is the captured
Kenn-Nr token when present, else generate_id. -/
def mkJobAd (ext : ExtFns) (base_url job_type : String) (li : ListItem) : Option JobAd :=
  match li.link with
  | none => none
  | some link =>
    let title := pstrip link.text
    let pdf_url := ext.urljoin base_url link.href
    let full_text := li.fullText
    let deadline := (parse_deadline full_text).1
    let job_id :=
      match searchKennNr full_text.data with
      | some tok => String.mk tok
      | none => generate_id ext.md5 title deadline
    some { id := job_id, title := title, pdf_url := pdf_url,
           job_type := job_type, deadline := deadline }

/-- scrape_job_ads, source lines 72 to 110.  Returns the candidate list and
the warning messages logged, or the AttributeError the attribute access on
a missing h1 raises (source line 74).  A missing container yields the empty
list with a warning (source lines 79 to 81). -/
def scrape_job_ads (ext : ExtFns) (soup : Soup) (base_url : String) :
    Except String (List JobAd × List String) :=
  match soup.h1 with
  | none => Except.error "AttributeError: NoneType object has no attribute text"
  | some h =>
    let job_type := pstrip h
    match soup.container with
    | none => Except.ok ([], ["Could not find the job listings container"])
    | some items => Except.ok (items.filterMap (mkJobAd ext base_url job_type), [])

-- ## process_pdf (source lines 113 to 126)

/-- The external world of one process_pdf invocation: the outcome of
requests.get plus raise_for_status on the document url, the fresh name
NamedTemporaryFile picks, the outcome of writing the fetched bytes to that
file (an OSError from the write is possible), and the outcome of
extract_text on the written file. -/
structure PdfEnv where
  fetched : Except String String
  tmpName : String
  written : Except String Unit
  extracted : Except String String

/-- process_pdf, source lines 113 to 126, as a transformer of the set of
existing temporary files.  A fetch failure raises before any file is
created.  Otherwise NamedTemporaryFile creates the file with delete=False
and the fetched bytes are written to it inside the with block, source line
118, which precedes the try-finally: if the write raises, the with exit
only closes the file (delete=False) and the exception propagates with the
temporary file still existing.  Only once the write has returned does the
try-finally of source lines 121 to 126 run, unlinking the file whether
extract_text returns or raises. -/
def process_pdf (env : PdfEnv) (files : List String) :
    Except String String × List String :=
  match env.fetched with
  | Except.error e => (Except.error e, files)
  | Except.ok _content =>
    let files1 := files ++ [env.tmpName]
    match env.written with
    | Except.error e => (Except.error e, files1)
    | Except.ok _ =>
      (env.extracted, files1.filter (fun n => !decide (n = env.tmpName)))

-- ## process_input (source lines 128 to 153)

/-- A row of the job_ads table (source lines 33 to 34 and 142 to 143). -/
structure Row where
  id : String
  title : String
  full_text : String
  job_type : String
  deadline : Option DateD
deriving DecidableEq, Repr

/-- The sqlite connection: rows already committed, and rows staged by this
transaction but not yet committed.  SELECTs on the same connection see
both. -/
structure DB where
  committed : List Row
  staged : List Row
deriving DecidableEq, Repr

/-- The row the INSERT of source lines 142 to 143 stages for a candidate
and its extracted text. -/
def rowOf (job : JobAd) (full_text : String) : Row :=
  { id := job.id, title := job.title, full_text := full_text,
    job_type := job.job_type, deadline := job.deadline }

/-- The ids visible to a SELECT of this connection. -/
def DB.ids (db : DB) : List String := (db.committed ++ db.staged).map Row.id

/-- The SELECT of source line 137: does a row with this id exist (committed
or staged by this connection)? -/
def idPresent (db : DB) (i : String) : Bool :=
  (db.committed ++ db.staged).any (fun r => decide (r.id = i))

/-- conn.commit: staged rows become committed. -/
def commitDB (db : DB) : DB := { committed := db.committed ++ db.staged, staged := [] }

/-- conn.rollback: staged rows are discarded. -/
def rollbackDB (db : DB) : DB := { committed := db.committed, staged := [] }

/-- The error message of source line 146. -/
def pdfErrLog (jobId e : String) : String :=
  "Error processing PDF for job " ++ jobId ++ ": " ++ e

/-- The error message of source line 152 (the input path is not modelled). -/
def inputErrLog (e : String) : String := "Error processing input: " ++ e

/-- The external world of one process_input invocation: the outcome of
get_content plus BeautifulSoup on the listing location, and the outcome of
process_pdf per document url. -/
structure Fetcher where
  listing : Except String (Soup × String)
  pdf : String → Except String String

/-- The candidate loop of process_input, source lines 136 to 148: a
candidate whose id a SELECT already finds is skipped; otherwise process_pdf
runs, and its success stages an INSERT while its failure logs an error for
that candidate only and the loop continues. -/
def processJobs (pdf : String → Except String String) :
    List JobAd → DB → List String → DB × List String
  | [], db, logs => (db, logs)
  | job :: rest, db, logs =>
    if idPresent db job.id then
      processJobs pdf rest db logs
    else
      match pdf job.pdf_url with
      | Except.ok text =>
          processJobs pdf rest
            { committed := db.committed, staged := db.staged ++ [rowOf job text] } logs
      | Except.error e =>
          processJobs pdf rest db (logs ++ [pdfErrLog job.id e])

/-- process_input, source lines 128 to 153.  A failure of the listing fetch
or of parsing (the exceptions reaching the outer try) logs an error and
rolls back; otherwise the candidate loop runs and the transaction is
committed.  Returns the connection state and the error messages logged. -/
def process_input (ext : ExtFns) (f : Fetcher) (db : DB) : DB × List String :=
  match f.listing with
  | Except.error e => (rollbackDB db, [inputErrLog e])
  | Except.ok (soup, base_url) =>
    match scrape_job_ads ext soup base_url with
    | Except.error e => (rollbackDB db, [inputErrLog e])
    | Except.ok (jobs, slogs) =>
      let r := processJobs f.pdf jobs db []
      (commitDB r.1, slogs ++ r.2)

-- ## Lemmas about the SELECT guard and the candidate loop

theorem idPresent_true_iff (db : DB) (i : String) :
    idPresent db i = true ↔ ∃ r ∈ db.committed ++ db.staged, r.id = i := by
  simp [idPresent, List.any_eq_true]
  constructor
  · rintro (⟨r, hr, hid⟩ | ⟨r, hr, hid⟩)
    exacts [⟨r, Or.inl hr, hid⟩, ⟨r, Or.inr hr, hid⟩]
  · rintro ⟨r, hr | hr, hid⟩
    exacts [Or.inl ⟨r, hr, hid⟩, Or.inr ⟨r, hr, hid⟩]

theorem idPresent_false_iff (db : DB) (i : String) :
    idPresent db i = false ↔ ∀ r ∈ db.committed ++ db.staged, r.id ≠ i := by
  rw [← Bool.not_eq_true, idPresent_true_iff]
  push_neg
  rfl

theorem processJobs_committed (pdf : String → Except String String) :
    ∀ (jobs : List JobAd) (db : DB) (logs : List String),
      ((processJobs pdf jobs db logs).1).committed = db.committed := by
  intro jobs
  induction jobs with
  | nil => intro db logs; rfl
  | cons job rest ih =>
    intro db logs
    simp only [processJobs]
    cases h : idPresent db job.id with
    | true => simp only [if_true]; exact ih db logs
    | false =>
      simp only [Bool.false_eq_true, if_false]
      cases hp : pdf job.pdf_url with
      | ok text => exact ih _ logs
      | error e => exact ih db _

theorem processJobs_staged (pdf : String → Except String String) :
    ∀ (jobs : List JobAd) (db : DB) (logs : List String),
      ∃ new, ((processJobs pdf jobs db logs).1).staged = db.staged ++ new ∧
        ∀ r ∈ new, ¬ r.id ∈ db.committed.map Row.id := by
  intro jobs
  induction jobs with
  | nil => intro db logs; exact ⟨[], by simp [processJobs], by simp⟩
  | cons job rest ih =>
    intro db logs
    simp only [processJobs]
    cases h : idPresent db job.id with
    | true => simp only [if_true]; exact ih db logs
    | false =>
      simp only [Bool.false_eq_true, if_false]
      cases hp : pdf job.pdf_url with
      | error e => exact ih db _
      | ok text =>
        obtain ⟨new, hstg, hfr⟩ :=
          ih { committed := db.committed, staged := db.staged ++ [rowOf job text] } logs
        refine ⟨rowOf job text :: new, ?_, ?_⟩
        · rw [hstg]; simp
        · intro r hr
          rcases List.mem_cons.mp hr with rfl | h2
          · have hall := (idPresent_false_iff db job.id).mp h
            intro hmem
            rcases List.mem_map.mp hmem with ⟨r0, hr0, hid⟩
            exact hall r0 (List.mem_append_left _ hr0) hid
          · exact hfr r h2

theorem processJobs_mono (pdf : String → Except String String)
    (jobs : List JobAd) (db : DB) (logs : List String) (i : String)
    (h : i ∈ DB.ids db) : i ∈ DB.ids ((processJobs pdf jobs db logs).1) := by
  obtain ⟨new, hs, -⟩ := processJobs_staged pdf jobs db logs
  have hc := processJobs_committed pdf jobs db logs
  unfold DB.ids at h ⊢
  rw [hc, hs]
  simp only [List.map_append, List.mem_append] at h ⊢
  tauto

theorem processJobs_covers (pdf : String → Except String String) :
    ∀ (jobs : List JobAd) (db : DB) (logs : List String) (job : JobAd), job ∈ jobs →
      job.id ∈ DB.ids ((processJobs pdf jobs db logs).1) ∨
      ∃ e, pdf job.pdf_url = Except.error e := by
  intro jobs
  induction jobs with
  | nil => intro db logs job hj; exact absurd hj (List.not_mem_nil job)
  | cons j rest ih =>
    intro db logs job hj
    simp only [processJobs]
    cases h : idPresent db j.id with
    | true =>
      simp only [if_true]
      rcases List.mem_cons.mp hj with rfl | hmem
      · left
        apply processJobs_mono
        obtain ⟨r, hr, hid⟩ := (idPresent_true_iff db job.id).mp h
        exact List.mem_map.mpr ⟨r, hr, hid⟩
      · exact ih db logs job hmem
    | false =>
      simp only [Bool.false_eq_true, if_false]
      cases hp : pdf j.pdf_url with
      | ok text =>
        rcases List.mem_cons.mp hj with rfl | hmem
        · left
          apply processJobs_mono
          unfold DB.ids
          simp [rowOf]
        · exact ih _ logs job hmem
      | error e =>
        rcases List.mem_cons.mp hj with rfl | hmem
        · exact Or.inr ⟨e, hp⟩
        · exact ih db _ job hmem

theorem processJobs_noop (pdf : String → Except String String) :
    ∀ (jobs : List JobAd) (db : DB) (logs : List String),
      (∀ job ∈ jobs, job.id ∈ DB.ids db ∨ ∃ e, pdf job.pdf_url = Except.error e) →
      ((processJobs pdf jobs db logs).1) = db := by
  intro jobs
  induction jobs with
  | nil => intro db logs _; rfl
  | cons j rest ih =>
    intro db logs hall
    have htail : ∀ job ∈ rest, job.id ∈ DB.ids db ∨ ∃ e, pdf job.pdf_url = Except.error e :=
      fun job hj => hall job (List.mem_cons_of_mem _ hj)
    simp only [processJobs]
    rcases hall j (List.mem_cons_self j rest) with hin | ⟨e, he⟩
    · have hpres : idPresent db j.id = true := by
        unfold DB.ids at hin
        obtain ⟨r, hr, hid⟩ := List.mem_map.mp hin
        exact (idPresent_true_iff db j.id).mpr ⟨r, hr, hid⟩
      simp only [hpres, if_true]
      exact ih db logs htail
    · cases h : idPresent db j.id with
      | true => simp only [if_true]; exact ih db logs htail
      | false =>
        simp only [Bool.false_eq_true, if_false, he]
        exact ih db _ htail

theorem ids_commitDB (db : DB) : DB.ids (commitDB db) = DB.ids db := by
  simp [DB.ids, commitDB]

theorem rollbackDB_eq_self (db : DB) (h : db.staged = []) : rollbackDB db = db := by
  cases db with
  | mk c s => cases h; rfl

-- ## Concrete fixtures used to instantiate the theorems

/-- A concrete stand-in for the external helpers (any deterministic
functions qualify). -/
def extW : ExtFns := { md5 := fun s => "md5-" ++ s, urljoin := fun _base href => href }

/-- A listing entry with an explicit reference token. -/
def liW1 : ListItem :=
  { link := some { text := "Job One", href := "a.pdf" }, fullText := "Kenn-Nr. K1" }

/-- A second such entry. -/
def liW2 : ListItem :=
  { link := some { text := "Job Two", href := "b.pdf" }, fullText := "Kenn-Nr. K2" }

/-- A third such entry. -/
def liW3 : ListItem :=
  { link := some { text := "Job Three", href := "c.pdf" }, fullText := "Kenn-Nr. K3" }

/-- A parsed page with three candidate entries. -/
def soupW : Soup := { h1 := some "Jobs", container := some [liW1, liW2, liW3] }

/-- A world where the listing fetch succeeds and the document fetch fails
for the second document only. -/
def fW : Fetcher :=
  { listing := Except.ok (soupW, "https://b"),
    pdf := fun url => if url = "b.pdf" then Except.error "boom" else Except.ok "TEXT" }

/-- A world where the top-level listing fetch fails. -/
def f2W : Fetcher :=
  { listing := Except.error "network failure", pdf := fun _ => Except.ok "TEXT" }

/-- An empty store. -/
def dbW : DB := { committed := [], staged := [] }

/-- The candidate scrape_job_ads produces from the first entry. -/
def j1W : JobAd :=
  { id := "K1", title := "Job One", pdf_url := "a.pdf", job_type := "Jobs", deadline := none }

/-- The candidate scrape_job_ads produces from the second entry. -/
def j2W : JobAd :=
  { id := "K2", title := "Job Two", pdf_url := "b.pdf", job_type := "Jobs", deadline := none }

/-- The candidate scrape_job_ads produces from the third entry. -/
def j3W : JobAd :=
  { id := "K3", title := "Job Three", pdf_url := "c.pdf", job_type := "Jobs", deadline := none }

/-- A document-extraction world where fetch, write and extraction all
succeed. -/
def envW : PdfEnv :=
  { fetched := Except.ok "BYTES", tmpName := "tmp123",
    written := Except.ok (), extracted := Except.ok "TEXT" }

/-- A document-extraction world where the fetch succeeds but writing the
bytes to the temporary file raises. -/
def envW3 : PdfEnv :=
  { fetched := Except.ok "BYTES", tmpName := "tmpLeak",
    written := Except.error "OSError: no space left on device",
    extracted := Except.ok "TEXT" }

/-- A text whose first pattern matches but fails format parsing (the comma
is missing) while the second pattern parses. -/
def textW8 : String := "Deadline: March 15 2024 Bewerbungsschluss: 15.03.2024"

-- ## Claim theorems

/-- Claim C1: a candidate whose identifier already exists as a row id in the
store triggers no insert and no update: the committed rows after a run are
exactly the old rows (byte for byte unchanged) followed only by rows whose
ids were not previously present, so no duplicate of an existing id is ever
created; and running the pipeline a second time over the same listing
content adds zero rows. -/
theorem c1_dedup_idempotent (ext : ExtFns) (f : Fetcher) (db : DB)
    (h : db.staged = []) :
    (∃ new, (process_input ext f db).1.committed = db.committed ++ new ∧
      ∀ r ∈ new, ¬ r.id ∈ db.committed.map Row.id) ∧
    (process_input ext f (process_input ext f db).1).1.committed =
      (process_input ext f db).1.committed := by
  cases hl : f.listing with
  | error e =>
    constructor
    · exact ⟨[], by simp [process_input, hl, rollbackDB], by simp⟩
    · simp [process_input, hl, rollbackDB]
  | ok p =>
    obtain ⟨soup, base⟩ := p
    cases hs : scrape_job_ads ext soup base with
    | error e =>
      constructor
      · exact ⟨[], by simp [process_input, hl, hs, rollbackDB], by simp⟩
      · simp [process_input, hl, hs, rollbackDB]
    | ok q =>
      obtain ⟨jobs, slogs⟩ := q
      obtain ⟨new, hstg, hfr⟩ := processJobs_staged f.pdf jobs db []
      have hcom := processJobs_committed f.pdf jobs db []
      have hrun1 : (process_input ext f db).1 =
          commitDB (processJobs f.pdf jobs db []).1 := by
        simp [process_input, hl, hs]
      constructor
      · refine ⟨new, ?_, hfr⟩
        rw [hrun1]
        simp [commitDB, hcom, hstg, h]
      · have hids : ∀ job ∈ jobs,
            job.id ∈ DB.ids (process_input ext f db).1 ∨
            ∃ e, f.pdf job.pdf_url = Except.error e := by
          intro job hj
          rcases processJobs_covers f.pdf jobs db [] job hj with hin | he
          · left; rw [hrun1, ids_commitDB]; exact hin
          · right; exact he
        have hnoop := processJobs_noop f.pdf jobs (process_input ext f db).1 [] hids
        have hstg2 : (process_input ext f db).1.staged = [] := by
          rw [hrun1]; rfl
        calc (process_input ext f (process_input ext f db).1).1.committed
            = (commitDB (processJobs f.pdf jobs (process_input ext f db).1 []).1).committed := by
              simp [process_input, hl, hs]
          _ = (process_input ext f db).1.committed := by
              rw [hnoop]; simp [commitDB, hstg2]

/-- Claim C2: when the listing fetch fails, or parsing the fetched listing
into candidates raises (the AttributeError path of scrape_job_ads), the
outer handler of process_input rolls back and the connection is exactly as
it was before the run; in particular a failing top-level fetch leaves no
new records from that run. -/
theorem c2_rollback_on_failure (ext : ExtFns) (f : Fetcher) (db : DB)
    (h : db.staged = []) :
    (∀ e, f.listing = Except.error e → (process_input ext f db).1 = db) ∧
    (∀ soup base e, f.listing = Except.ok (soup, base) →
      scrape_job_ads ext soup base = Except.error e →
      (process_input ext f db).1 = db) := by
  constructor
  · intro e hl
    simp [process_input, hl, rollbackDB_eq_self db h]
  · intro soup base e hl hs
    simp [process_input, hl, hs, rollbackDB_eq_self db h]

/-- Claim C3 counterexample: not every exception raised inside process_pdf
leaves the temporary file deleted.  The write of the fetched bytes at
source line 118 happens after NamedTemporaryFile has created the file with
delete=False but before the try-finally is entered: in a world where that
write raises, the call returns (propagates) with the temporary file it
created still existing. -/
theorem c3_counterexample :
    (process_pdf envW3 []).2 = ["tmpLeak"] ∧
    (process_pdf envW3 []).1 = Except.error "OSError: no space left on device" :=
  ⟨rfl, rfl⟩

/-- Claim C3 as amended: process_pdf deletes the uniquely named temporary
file it created before control returns on every exit path except a failure
of the write of the fetched bytes itself: when the write of the fetched
bytes succeeds, the file is deleted on successful extraction and on
extraction failure alike, and a fetch failure raises before any temporary
file is created; in all these cases the set of existing files after the
call equals the set before. -/
theorem c3_amended_tmpfile_cleanup (env : PdfEnv) (files : List String)
    (hfresh : ¬ env.tmpName ∈ files) :
    (env.written = Except.ok () → (process_pdf env files).2 = files) ∧
    (∀ e, env.fetched = Except.error e → (process_pdf env files).2 = files) := by
  constructor
  · intro hw
    cases hf : env.fetched with
    | error e => simp [process_pdf, hf]
    | ok c =>
      simp only [process_pdf, hf, hw]
      rw [List.filter_append]
      have h1 : files.filter (fun n => !decide (n = env.tmpName)) = files := by
        apply List.filter_eq_self.mpr
        intro n hn
        simp only [Bool.not_eq_true', decide_eq_false_iff_not]
        intro heq
        exact hfresh (heq ▸ hn)
      have h2 : [env.tmpName].filter (fun n => !decide (n = env.tmpName)) = [] := by
        simp
      rw [h1, h2, List.append_nil]
  · intro e hf
    simp [process_pdf, hf]

/-- Claim C4: a per-candidate document failure is isolated: for three fresh
candidates where process_pdf fails for the second only, the run persists
the records of the first and third, persists nothing for the second, and
the only error logged is the one naming the second candidate. -/
theorem c4_isolation (ext : ExtFns) (f : Fetcher) (db : DB) (soup : Soup)
    (base : String) (j1 j2 j3 : JobAd) (t1 t3 e : String) (slogs : List String)
    (hst : db.staged = [])
    (hl : f.listing = Except.ok (soup, base))
    (hs : scrape_job_ads ext soup base = Except.ok ([j1, j2, j3], slogs))
    (hp1 : f.pdf j1.pdf_url = Except.ok t1)
    (hp2 : f.pdf j2.pdf_url = Except.error e)
    (hp3 : f.pdf j3.pdf_url = Except.ok t3)
    (hf1 : ¬ j1.id ∈ db.committed.map Row.id)
    (hf2 : ¬ j2.id ∈ db.committed.map Row.id)
    (hf3 : ¬ j3.id ∈ db.committed.map Row.id)
    (hd21 : j2.id ≠ j1.id) (hd31 : j3.id ≠ j1.id) :
    (process_input ext f db).1.committed =
      db.committed ++ [rowOf j1 t1, rowOf j3 t3] ∧
    (process_input ext f db).2 = slogs ++ [pdfErrLog j2.id e] := by
  have aux0 : ∀ i, ¬ i ∈ db.committed.map Row.id → idPresent db i = false := by
    intro i hi
    apply (idPresent_false_iff db i).mpr
    intro r hr
    rw [hst, List.append_nil] at hr
    intro heq
    exact hi (List.mem_map.mpr ⟨r, hr, heq⟩)
  have e1 : idPresent db j1.id = false := aux0 j1.id hf1
  have e2 : idPresent { committed := db.committed, staged := db.staged ++ [rowOf j1 t1] }
      j2.id = false := by
    apply (idPresent_false_iff _ _).mpr
    intro r hr
    simp only [hst, List.nil_append, List.mem_append, List.mem_singleton] at hr
    rcases hr with hr | rfl
    · intro heq; exact hf2 (List.mem_map.mpr ⟨r, hr, heq⟩)
    · exact fun heq => hd21 (heq.symm)
  have e3 : idPresent { committed := db.committed, staged := db.staged ++ [rowOf j1 t1] }
      j3.id = false := by
    apply (idPresent_false_iff _ _).mpr
    intro r hr
    simp only [hst, List.nil_append, List.mem_append, List.mem_singleton] at hr
    rcases hr with hr | rfl
    · intro heq; exact hf3 (List.mem_map.mpr ⟨r, hr, heq⟩)
    · exact fun heq => hd31 (heq.symm)
  simp only [process_input, hl, hs, processJobs, e1, e2, e3, hp1, hp2, hp3,
    Bool.false_eq_true, if_false]
  constructor
  · simp [commitDB, hst]
  · simp

/-- Claim C5: in the absence of an explicit reference token, generate_id is
a deterministic function of title and deadline: with a deadline present it
is the hash of the title concatenated with the canonical ISO rendering of
the date, with a deadline absent it is the hash of the title alone; since
it is a function of these inputs, equal pairs give equal identifiers across
runs. -/
theorem c5_generate_id_deterministic (md5 : String → String) (title : String)
    (d : DateD) :
    generate_id md5 title (some d) = md5 (title ++ dateIso d) ∧
    generate_id md5 title none = md5 title :=
  ⟨rfl, rfl⟩

/-- Claim C6: when the raw text of a candidate contains a labeled
reference-number token, the token captured from its first occurrence is the
identifier of the candidate scrape_job_ads produces for that entry,
whatever its title and deadline are; and the hash fallback is used exactly
for entries carrying no such token. -/
theorem c6_kenn_nr_precedence (ext : ExtFns) (h1text base : String)
    (items : List ListItem) (li : ListItem) (a : Anchor) (tok : List Char)
    (hmem : li ∈ items) (hlink : li.link = some a)
    (htok : searchKennNr li.fullText.data = some tok) :
    (∃ j, mkJobAd ext base (pstrip h1text) li = some j ∧ j.id = String.mk tok ∧
      ∃ jobs logs,
        scrape_job_ads ext { h1 := some h1text, container := some items } base =
          Except.ok (jobs, logs) ∧ j ∈ jobs) ∧
    (∀ li2 a2, li2.link = some a2 → searchKennNr li2.fullText.data = none →
      (mkJobAd ext base (pstrip h1text) li2).map JobAd.id =
        some (generate_id ext.md5 (pstrip a2.text) (parse_deadline li2.fullText).1)) := by
  constructor
  · have hmk : mkJobAd ext base (pstrip h1text) li = some
        { id := String.mk tok, title := pstrip a.text,
          pdf_url := ext.urljoin base a.href, job_type := pstrip h1text,
          deadline := (parse_deadline li.fullText).1 } := by
      simp [mkJobAd, hlink, htok]
    refine ⟨_, hmk, rfl, ?_⟩
    refine ⟨_, _, rfl, ?_⟩
    exact List.mem_filterMap.mpr ⟨li, hmem, hmk⟩
  · intro li2 a2 hl2 hn2
    simp [mkJobAd, hl2, hn2]

/-- Claim C7 counterexample: the claim quantifies over every input text
containing the fragment; but re.search takes the leftmost match, so a text
that contains the fragment after an earlier matching deadline parses to the
earlier date, not to 2024-03-15. -/
theorem c7_counterexample :
    hasSub ("Deadline: March 15, 2024".data)
        ("Deadline: April 01, 2024 Deadline: March 15, 2024".data) = true ∧
    (parse_deadline ("Deadline: April 01, 2024 Deadline: March 15, 2024")).1 =
      some { year := 2024, month := 4, day := 1 } ∧
    (parse_deadline ("Deadline: April 01, 2024 Deadline: March 15, 2024")).1 ≠
      some { year := 2024, month := 3, day := 15 } := by
  refine ⟨by decide, by decide, by decide⟩

/-- Claim C7 as amended: an input text whose leftmost month-name pattern
match captures the fragment March 15, 2024 yields the deadline 2024-03-15
(in particular the text Deadline: March 15, 2024 itself does), and an input
text with no month-name pattern match whose leftmost dotted pattern match
captures 15.03.2024 yields 2024-03-15 (in particular the text
Bewerbungsschluss: 15.03.2024 itself does). -/
theorem c7_amended_deadline_formats (text : String) :
    (searchP1 text.data = some ("March 15, 2024".data) →
      (parse_deadline text).1 = some { year := 2024, month := 3, day := 15 }) ∧
    (searchP1 text.data = none → searchP2 text.data = some ("15.03.2024".data) →
      (parse_deadline text).1 = some { year := 2024, month := 3, day := 15 }) := by
  constructor
  · intro h1
    have hc : tryParseCaptured ("March 15, 2024".data) =
        some { year := 2024, month := 3, day := 15 } := by decide
    simp [parse_deadline, datePatterns, parseLoop, h1, hc]
  · intro h1 h2
    have hc : tryParseCaptured ("15.03.2024".data) =
        some { year := 2024, month := 3, day := 15 } := by decide
    simp [parse_deadline, datePatterns, parseLoop, h1, h2, hc]

/-- Claim C8: parse_deadline tries its patterns in order and does not abort
on a fragment that fails format parsing: if pattern 1 matched but its
fragment failed to parse, a warning naming the fragment is logged and the
result is whatever pattern 2 gives; and when no pattern yields a parseable
date the function returns none together with a logged warning, rather than
raising (it is a total function). -/
theorem c8_pattern_fallthrough (text : String) :
    (∀ cap1 cap2 d, searchP1 text.data = some cap1 →
      tryParseCaptured cap1 = none →
      searchP2 text.data = some cap2 →
      tryParseCaptured cap2 = some d →
      (parse_deadline text).1 = some d ∧
        ("Failed to parse date: " ++ String.mk cap1) ∈ (parse_deadline text).2) ∧
    ((∀ cap, searchP1 text.data = some cap → tryParseCaptured cap = none) →
     (∀ cap, searchP2 text.data = some cap → tryParseCaptured cap = none) →
     (parse_deadline text).1 = none ∧
       ("No valid deadline found in: " ++ text) ∈ (parse_deadline text).2) := by
  constructor
  · intro cap1 cap2 d h1 h2 h3 h4
    simp [parse_deadline, datePatterns, parseLoop, h1, h2, h3, h4]
  · intro hA hB
    cases hs1 : searchP1 text.data with
    | none =>
      cases hs2 : searchP2 text.data with
      | none => simp [parse_deadline, datePatterns, parseLoop, hs1, hs2]
      | some cap2 =>
        have h2 := hB cap2 hs2
        simp [parse_deadline, datePatterns, parseLoop, hs1, hs2, h2]
    | some cap1 =>
      have h1 := hA cap1 hs1
      cases hs2 : searchP2 text.data with
      | none => simp [parse_deadline, datePatterns, parseLoop, hs1, hs2, h1]
      | some cap2 =>
        have h2 := hB cap2 hs2
        simp [parse_deadline, datePatterns, parseLoop, hs1, hs2, h1, h2]

/-- Claim C9 counterexample: markup that lacks the expected listings
container and has no h1 heading makes scrape_job_ads raise (the attribute
access on the result of find of h1 is an AttributeError) instead of
returning an empty candidate sequence. -/
theorem c9_counterexample :
    scrape_job_ads extW { h1 := none, container := none } ("https://b") =
      Except.error "AttributeError: NoneType object has no attribute text" := rfl

/-- Claim C9 as amended: for markup that has an h1 heading but lacks the
expected listings container, scrape_job_ads returns the empty candidate
sequence together with the logged warning, and does not raise. -/
theorem c9_amended_empty_listing (ext : ExtFns) (h1text base : String) :
    scrape_job_ads ext { h1 := some h1text, container := none } base =
      Except.ok ([], ["Could not find the job listings container"]) := rfl

/-- Claim C10: the month-name pattern requires exactly two day digits, so a
single-digit day such as Deadline: March 5, 2024 yields no date at all,
while the same date written with two digits parses. -/
theorem c10_single_digit_day :
    (parse_deadline ("Deadline: March 5, 2024")).1 = none ∧
    (parse_deadline ("Deadline: March 05, 2024")).1 =
      some { year := 2024, month := 3, day := 5 } := by
  refine ⟨by decide, by decide⟩

-- ## Witnesses

/-- Witness for claim C1, at a concrete world with three fresh candidates,
one failing document, and an empty store. -/
theorem c1_dedup_idempotent_witness :
    (∃ new, (process_input extW fW dbW).1.committed = dbW.committed ++ new ∧
      ∀ r ∈ new, ¬ r.id ∈ dbW.committed.map Row.id) ∧
    (process_input extW fW (process_input extW fW dbW).1).1.committed =
      (process_input extW fW dbW).1.committed :=
  c1_dedup_idempotent extW fW dbW rfl

/-- Witness for claim C2, at a concrete world whose listing fetch fails. -/
theorem c2_rollback_on_failure_witness :
    (process_input extW f2W dbW).1 = dbW :=
  (c2_rollback_on_failure extW f2W dbW rfl).1 ("network failure") rfl

/-- Witness for the amended claim C3, at a concrete invocation with a
fresh temporary name where fetch, write and extraction succeed. -/
theorem c3_amended_tmpfile_cleanup_witness :
    (process_pdf envW ["keep.pdf"]).2 = ["keep.pdf"] :=
  (c3_amended_tmpfile_cleanup envW ["keep.pdf"] (by decide)).1 rfl

/-- Witness for claim C4, at the concrete three-candidate world where the
second document fetch fails. -/
theorem c4_isolation_witness :
    (process_input extW fW dbW).1.committed =
      dbW.committed ++ [rowOf j1W "TEXT", rowOf j3W "TEXT"] ∧
    (process_input extW fW dbW).2 = [] ++ [pdfErrLog j2W.id "boom"] :=
  c4_isolation extW fW dbW soupW ("https://b") j1W j2W j3W ("TEXT") ("TEXT") ("boom") []
    rfl rfl rfl rfl rfl rfl (by decide) (by decide) (by decide) (by decide) (by decide)

/-- Witness for claim C6, at a concrete entry whose raw text carries the
token K1. -/
theorem c6_kenn_nr_precedence_witness :
    (∃ j, mkJobAd extW ("https://b") (pstrip ("Jobs")) liW1 = some j ∧
      j.id = String.mk ("K1".data) ∧
      ∃ jobs logs,
        scrape_job_ads extW { h1 := some "Jobs", container := some [liW1] } ("https://b") =
          Except.ok (jobs, logs) ∧ j ∈ jobs) ∧
    (∀ li2 a2, li2.link = some a2 → searchKennNr li2.fullText.data = none →
      (mkJobAd extW ("https://b") (pstrip ("Jobs")) li2).map JobAd.id =
        some (generate_id extW.md5 (pstrip a2.text) (parse_deadline li2.fullText).1)) :=
  c6_kenn_nr_precedence extW ("Jobs") ("https://b") [liW1] liW1
    { text := "Job One", href := "a.pdf" } ("K1".data) (by decide) rfl (by decide)

/-- Witness for the amended claim C7, at the two concrete example texts of
the specification. -/
theorem c7_amended_deadline_formats_witness :
    (parse_deadline ("Deadline: March 15, 2024")).1 =
      some { year := 2024, month := 3, day := 15 } ∧
    (parse_deadline ("Bewerbungsschluss: 15.03.2024")).1 =
      some { year := 2024, month := 3, day := 15 } :=
  ⟨(c7_amended_deadline_formats ("Deadline: March 15, 2024")).1 (by decide),
   (c7_amended_deadline_formats ("Bewerbungsschluss: 15.03.2024")).2 (by decide) (by decide)⟩

/-- Witness for claim C8, at a concrete text whose first pattern matches
but fails format parsing while the second parses. -/
theorem c8_pattern_fallthrough_witness :
    (parse_deadline textW8).1 = some { year := 2024, month := 3, day := 15 } ∧
      ("Failed to parse date: " ++ String.mk ("March 15 2024".data)) ∈
        (parse_deadline textW8).2 :=
  (c8_pattern_fallthrough textW8).1 ("March 15 2024".data) ("15.03.2024".data)
    { year := 2024, month := 3, day := 15 } (by decide) (by decide) (by decide) (by decide)
